import Mathlib

/-!
Shallow embedding of the outline-to-slide-deck converter in
`skills/revealjs/scripts/create_presentation.py`: the outline parser
`parse_outline` and the per-slide renderer `generate_slide_html`,
together with theorems settling the specification claims.

String primitives are implemented structurally over `List Char` so that
every definition evaluates inside the kernel; each mirrors the Python
string method used by the source.
-/

/-! ## String primitives (Python `str` methods over `List Char`) -/

/-- Python whitespace for `str.strip()`. -/
def isWS (c : Char) : Bool :=
  c == ' ' || c == '\t' || c == '\n' || c == '\r' || c == '\x0b' || c == '\x0c'

/-- Strip leading and trailing whitespace from a character list. -/
def trimChars (l : List Char) : List Char :=
  ((l.dropWhile isWS).reverse.dropWhile isWS).reverse

/-- `line.strip()`. -/
def sTrim (s : String) : String := ⟨trimChars s.data⟩

/-- `beginsWith p l` : is `p` an initial segment of `l`? -/
def beginsWith : List Char → List Char → Bool
  | [], _ => true
  | _ :: _, [] => false
  | a :: as, b :: bs => a == b && beginsWith as bs

/-- `s.startswith(p)`. -/
def sStarts (s p : String) : Bool := beginsWith p.data s.data

/-- `s[n:]`. -/
def sDrop (s : String) (n : Nat) : String := ⟨s.data.drop n⟩

/-- `s.lower()`. -/
def sLower (s : String) : String := ⟨s.data.map Char.toLower⟩

/-- `c in s` for a single character. -/
def sHasChar (s : String) (c : Char) : Bool := s.data.contains c

/-- Split a character list on every occurrence of `c` (Python `str.split(c)`). -/
def splitOnChar (c : Char) : List Char → List (List Char)
  | [] => [[]]
  | x :: rest =>
      if x == c then [] :: splitOnChar c rest
      else
        match splitOnChar c rest with
        | [] => [[x]]
        | g :: gs => (x :: g) :: gs

/-- `text.split('\n')`. -/
def sSplitLines (s : String) : List String := (splitOnChar '\n' s.data).map (fun l => ⟨l⟩)

/-- Split a character list at the first occurrence of `c`, if any. -/
def splitFirstChar (c : Char) : List Char → Option (List Char × List Char)
  | [] => none
  | x :: rest =>
      if x == c then some ([], rest)
      else (splitFirstChar c rest).map (fun p => (x :: p.1, p.2))

/-- `line.split(':', 1)` as a pair (second component empty when there is
no colon; the callers guard on `':' in line`). -/
def colonSplit (line : String) : String × String :=
  match splitFirstChar ':' line.data with
  | some (k, v) => (⟨k⟩, ⟨v⟩)
  | none => (line, "")

/-! ## Data model -/

/-- Slide kind: `'title'` or `'content'` in the Python dict field `type`. -/
inductive SlideType where
  | title
  | content
deriving DecidableEq, Repr

/-- One slide record, mirroring the Python dict
`{'type', 'title', 'content', 'metadata'}`.  The metadata dict is modelled
as an association list with in-place update (last write wins per key). -/
structure Slide where
  type : SlideType
  title : String
  content : List String
  metadata : List (String × String)
deriving DecidableEq, Repr

/-- `d[k] = v` on a Python dict modelled as an association list:
replace the binding for `k` if present, else append it. -/
def dictInsert : List (String × String) → String → String → List (String × String)
  | [], k, v => [(k, v)]
  | (k0, v0) :: rest, k, v =>
      if k0 = k then (k, v) :: rest else (k0, v0) :: dictInsert rest k v

/-- `d.get(k)` on the association-list dict. -/
def dictGet (d : List (String × String)) (k : String) : Option String :=
  (d.find? (fun kv => decide (kv.1 = k))).map (fun kv => kv.2)

/-- The loop state of `parse_outline`: the committed slides, the slide
under construction (`current_slide`, possibly `None`) and the
`in_code_block` flag.  (`code_lang` is written at fence-open time and
only read there, so it needs no place in the state.) -/
structure ParseState where
  slides : List Slide
  current : Option Slide
  inCodeBlock : Bool
deriving DecidableEq, Repr

/-- The state at loop entry. -/
def initState : ParseState := ⟨[], none, false⟩

/-! ## Parser -/

/-- `current_slide['content'].append(frag)`. -/
def appendFrag (frag : String) (s : Slide) : Slide :=
  { s with content := s.content ++ [frag] }

/-- Apply `f` to the slide under construction, if any. -/
def mapCurrent (st : ParseState) (f : Slide → Slide) : ParseState :=
  { st with current := st.current.map f }

/-- `line.strip()[3:].strip() or 'text'`: the language tag of an opening
fence line. -/
def fenceLang (line : String) : String :=
  let t := sTrim (sDrop (sTrim line) 3)
  if t = "" then "text" else t

/-- The code-block-open fragment `<pre><code class="{lang}" data-trim>`. -/
def codeOpenFrag (line : String) : String :=
  "<pre><code class=\"" ++ fenceLang line ++ "\" data-trim>"

/-- The fresh slide allocated at a `# ` line. -/
def newSlideOf (line : String) : Slide :=
  let slideTitle := sTrim (sDrop line 2)
  { type := if sLower slideTitle = "title slide" then SlideType.title else SlideType.content
    title := slideTitle
    content := []
    metadata := [] }

/-- `line.split(':', 1)[0].strip()`. -/
def colonKey (line : String) : String := sTrim (colonSplit line).1

/-- `line.split(':', 1)[1].strip()`: everything after the first colon. -/
def colonVal (line : String) : String := sTrim (colonSplit line).2

/-- The fixed metadata key list `['Title', 'Subtitle', 'Author', 'Date']`. -/
def recognizedKeys : List String := ["Title", "Subtitle", "Author", "Date"]

/-- `current_slide['metadata'][key.lower()] = value` for a metadata line. -/
def metaUpdate (line : String) (s : Slide) : Slide :=
  { s with metadata := dictInsert s.metadata (sLower (colonKey line)) (colonVal line) }

/-- Backward scan over the body fragments (given reversed): `True` if a
`<ul>` is met before any `</ul>`. -/
def scanOpenRev : List String → Bool
  | [] => false
  | x :: rest => if x = "<ul>" then true else if x = "</ul>" then false else scanOpenRev rest

/-- The Python backward loop over `current_slide['content']`: is there a
`<ul>` with no matching `</ul>` after it? -/
def hasOpenList (content : List String) : Bool := scanOpenRev content.reverse

/-- `'  <li>' + line.strip()[1:].strip() + '</li>'`. -/
def bulletItem (line : String) : String :=
  "  <li>" ++ sTrim (sDrop (sTrim line) 1) ++ "</li>"

/-- Handling of a bullet line: open a `<ul>` unless the backward scan
finds one still open, then append the list item. -/
def bulletUpdate (line : String) (s : Slide) : Slide :=
  { s with content :=
      (if hasOpenList s.content then s.content else s.content ++ ["<ul>"]) ++ [bulletItem line] }

/-- `'<p>' + line.strip() + '</p>'`. -/
def para (line : String) : String := "<p>" ++ sTrim line ++ "</p>"

/-- Close the open list and append a paragraph (non-bullet, non-blank
line after open list content). -/
def closeParaUpdate (line : String) (s : Slide) : Slide :=
  { s with content := s.content ++ ["</ul>", para line] }

/-- `'<h2>' + line[3:].strip() + '</h2>'`. -/
def h2Frag (line : String) : String := "<h2>" ++ sTrim (sDrop line 3) ++ "</h2>"

/-- One iteration of the `for line in text.split('\n')` loop of
`parse_outline`, branch for branch. -/
def processLine (st : ParseState) (line : String) : ParseState :=
  if sStarts (sTrim line) "```" then
    if st.inCodeBlock then
      { mapCurrent st (appendFrag "</code></pre>") with inCodeBlock := false }
    else
      { mapCurrent st (appendFrag (codeOpenFrag line)) with inCodeBlock := true }
  else if st.inCodeBlock then
    mapCurrent st (appendFrag line)
  else if sStarts line "# " then
    { slides := st.slides ++ st.current.toList
      current := some (newSlideOf line)
      inCodeBlock := st.inCodeBlock }
  else if sStarts line "## " then
    mapCurrent st (appendFrag (h2Frag line))
  else if sHasChar line ':' && !sStarts (sTrim line) "-" then
    match st.current with
    | some s =>
        if colonKey line ∈ recognizedKeys then { st with current := some (metaUpdate line s) }
        else st
    | none => st
  else if sStarts (sTrim line) "-" then
    match st.current with
    | some s => { st with current := some (bulletUpdate line s) }
    | none => st
  else
    match st.current with
    | some s =>
        if s.content = [] then
          if sTrim line ≠ "" then { st with current := some (appendFrag (para line) s) } else st
        else
          if hasOpenList s.content = true ∧ sTrim line ≠ "" then
            { st with current := some (closeParaUpdate line s) }
          else if sTrim line ≠ "" then
            { st with current := some (appendFrag (para line) s) }
          else st
    | none => st

/-- End-of-input handling of the slide under construction: close a
trailing open list (`content[-1].startswith('  <li>')`). -/
def finalizeSlide (s : Slide) : Slide :=
  match s.content.getLast? with
  | some l => if sStarts l "  <li>" then { s with content := s.content ++ ["</ul>"] } else s
  | none => s

/-- Commit the slide under construction, if any, after the loop. -/
def finalizeState (st : ParseState) : List Slide :=
  match st.current with
  | some s => st.slides ++ [finalizeSlide s]
  | none => st.slides

/-- `parse_outline(text)`. -/
def parse_outline (text : String) : List Slide :=
  finalizeState ((sSplitLines text).foldl processLine initState)

/-! ## Renderer -/

/-- `generate_slide_html(slide)`. -/
def generate_slide_html (slide : Slide) : String :=
  if slide.type = SlideType.title then
    let t := (dictGet slide.metadata "title").getD "Presentation Title"
    let sub := (dictGet slide.metadata "subtitle").getD ""
    let auth := (dictGet slide.metadata "author").getD ""
    let date := (dictGet slide.metadata "date").getD ""
    let html := "      <section>\n" ++ "        <h1>" ++ t ++ "</h1>\n"
    let html := if sub ≠ "" then html ++ "        <h3>" ++ sub ++ "</h3>\n" else html
    let html :=
      if auth ≠ "" ∨ date ≠ "" then
        let h := html ++ "        <p>\n"
        let h := if auth ≠ "" then h ++ "          <small>" ++ auth ++ "</small><br>\n" else h
        let h := if date ≠ "" then h ++ "          <small>" ++ date ++ "</small>\n" else h
        h ++ "        </p>\n"
      else html
    html ++ "      </section>\n"
  else
    "      <section>\n"
      ++ String.join (slide.content.map (fun l => "        " ++ l ++ "\n"))
      ++ "      </section>\n"

/-- Sanity check: the worked scenario of the specification. -/
lemma parse_outline_scenario :
    parse_outline "# Title Slide\nTitle: Demo\n\n# Slide 1\n## Topic\n- One\n- Two\n" =
    [⟨SlideType.title, "Title Slide", [], [("title", "Demo")]⟩,
     ⟨SlideType.content, "Slide 1",
       ["<h2>Topic</h2>", "<ul>", "  <li>One</li>", "  <li>Two</li>", "</ul>"], []⟩] := by
  decide

/-! ## Marker bookkeeping: which lines start a slide -/

/-- How a line updates the `in_code_block` flag. -/
def fenceToggle (inCode : Bool) (line : String) : Bool :=
  if sStarts (sTrim line) "```" then !inCode else inCode

/-- The headings of the slides an input's lines create, in order: the
trimmed trailing text of every `# ` line met outside fenced code. -/
def markerHeadings (inCode : Bool) : List String → List String
  | [] => []
  | line :: rest =>
      if sStarts (sTrim line) "```" then markerHeadings (!inCode) rest
      else if inCode then markerHeadings inCode rest
      else if sStarts line "# " then sTrim (sDrop line 2) :: markerHeadings inCode rest
      else markerHeadings inCode rest

/-- The headings of all slides held by a parser state, committed slides
first, then the slide under construction. -/
def headingsOf (st : ParseState) : List String :=
  st.slides.map Slide.title ++ (st.current.map Slide.title).toList

@[simp] lemma appendFrag_title (frag : String) (s : Slide) :
    (appendFrag frag s).title = s.title := rfl

@[simp] lemma metaUpdate_title (line : String) (s : Slide) :
    (metaUpdate line s).title = s.title := rfl

@[simp] lemma bulletUpdate_title (line : String) (s : Slide) :
    (bulletUpdate line s).title = s.title := rfl

@[simp] lemma closeParaUpdate_title (line : String) (s : Slide) :
    (closeParaUpdate line s).title = s.title := rfl

@[simp] lemma newSlideOf_title (line : String) :
    (newSlideOf line).title = sTrim (sDrop line 2) := rfl

@[simp] lemma finalizeSlide_title (s : Slide) : (finalizeSlide s).title = s.title := by
  unfold finalizeSlide
  cases s.content.getLast? with
  | none => rfl
  | some l => by_cases h : sStarts l "  <li>" = true <;> simp [h]

/-! ### Branch lemmas: `processLine` under each classification -/

lemma pl_fence_close (st : ParseState) (line : String)
    (hf : sStarts (sTrim line) "```" = true) (hc : st.inCodeBlock = true) :
    processLine st line = ⟨st.slides, st.current.map (appendFrag "</code></pre>"), false⟩ := by
  unfold processLine; rw [if_pos hf, if_pos hc]; rfl

lemma pl_fence_open (st : ParseState) (line : String)
    (hf : sStarts (sTrim line) "```" = true) (hc : st.inCodeBlock = false) :
    processLine st line = ⟨st.slides, st.current.map (appendFrag (codeOpenFrag line)), true⟩ := by
  unfold processLine; rw [if_pos hf, if_neg (by simp [hc])]; rfl

lemma pl_code (st : ParseState) (line : String)
    (hf : sStarts (sTrim line) "```" = false) (hc : st.inCodeBlock = true) :
    processLine st line = ⟨st.slides, st.current.map (appendFrag line), st.inCodeBlock⟩ := by
  unfold processLine; rw [if_neg (by simp [hf]), if_pos hc]; rfl

lemma pl_marker (st : ParseState) (line : String)
    (hf : sStarts (sTrim line) "```" = false) (hc : st.inCodeBlock = false)
    (hm : sStarts line "# " = true) :
    processLine st line =
      ⟨st.slides ++ st.current.toList, some (newSlideOf line), st.inCodeBlock⟩ := by
  unfold processLine; rw [if_neg (by simp [hf]), if_neg (by simp [hc]), if_pos hm]

lemma pl_h2 (st : ParseState) (line : String)
    (hf : sStarts (sTrim line) "```" = false) (hc : st.inCodeBlock = false)
    (hm : sStarts line "# " = false) (hh : sStarts line "## " = true) :
    processLine st line = ⟨st.slides, st.current.map (appendFrag (h2Frag line)), st.inCodeBlock⟩ := by
  unfold processLine
  rw [if_neg (by simp [hf]), if_neg (by simp [hc]), if_neg (by simp [hm]), if_pos hh]; rfl

lemma pl_meta_nocur (st : ParseState) (line : String)
    (hf : sStarts (sTrim line) "```" = false) (hc : st.inCodeBlock = false)
    (hm : sStarts line "# " = false) (hh : sStarts line "## " = false)
    (hco : (sHasChar line ':' && !sStarts (sTrim line) "-") = true)
    (hcur : st.current = none) :
    processLine st line = st := by
  unfold processLine
  rw [if_neg (by simp [hf]), if_neg (by simp [hc]), if_neg (by simp [hm]),
    if_neg (by simp [hh]), if_pos hco, hcur]

lemma pl_meta_store (st : ParseState) (s : Slide) (line : String)
    (hf : sStarts (sTrim line) "```" = false) (hc : st.inCodeBlock = false)
    (hm : sStarts line "# " = false) (hh : sStarts line "## " = false)
    (hco : (sHasChar line ':' && !sStarts (sTrim line) "-") = true)
    (hcur : st.current = some s) (hk : colonKey line ∈ recognizedKeys) :
    processLine st line = ⟨st.slides, some (metaUpdate line s), st.inCodeBlock⟩ := by
  unfold processLine
  rw [if_neg (by simp [hf]), if_neg (by simp [hc]), if_neg (by simp [hm]),
    if_neg (by simp [hh]), if_pos hco, hcur]
  simp [hk]

lemma pl_meta_skip (st : ParseState) (s : Slide) (line : String)
    (hf : sStarts (sTrim line) "```" = false) (hc : st.inCodeBlock = false)
    (hm : sStarts line "# " = false) (hh : sStarts line "## " = false)
    (hco : (sHasChar line ':' && !sStarts (sTrim line) "-") = true)
    (hcur : st.current = some s) (hk : colonKey line ∉ recognizedKeys) :
    processLine st line = st := by
  unfold processLine
  rw [if_neg (by simp [hf]), if_neg (by simp [hc]), if_neg (by simp [hm]),
    if_neg (by simp [hh]), if_pos hco, hcur]
  simp [hk]

lemma pl_bullet_nocur (st : ParseState) (line : String)
    (hf : sStarts (sTrim line) "```" = false) (hc : st.inCodeBlock = false)
    (hm : sStarts line "# " = false) (hh : sStarts line "## " = false)
    (hco : (sHasChar line ':' && !sStarts (sTrim line) "-") = false)
    (hb : sStarts (sTrim line) "-" = true) (hcur : st.current = none) :
    processLine st line = st := by
  unfold processLine
  rw [if_neg (by simp [hf]), if_neg (by simp [hc]), if_neg (by simp [hm]),
    if_neg (by simp [hh]), if_neg (by simp [hco]), if_pos hb, hcur]

lemma pl_bullet (st : ParseState) (s : Slide) (line : String)
    (hf : sStarts (sTrim line) "```" = false) (hc : st.inCodeBlock = false)
    (hm : sStarts line "# " = false) (hh : sStarts line "## " = false)
    (hco : (sHasChar line ':' && !sStarts (sTrim line) "-") = false)
    (hb : sStarts (sTrim line) "-" = true) (hcur : st.current = some s) :
    processLine st line = ⟨st.slides, some (bulletUpdate line s), st.inCodeBlock⟩ := by
  unfold processLine
  rw [if_neg (by simp [hf]), if_neg (by simp [hc]), if_neg (by simp [hm]),
    if_neg (by simp [hh]), if_neg (by simp [hco]), if_pos hb, hcur]

lemma pl_other_nocur (st : ParseState) (line : String)
    (hf : sStarts (sTrim line) "```" = false) (hc : st.inCodeBlock = false)
    (hm : sStarts line "# " = false) (hh : sStarts line "## " = false)
    (hco : (sHasChar line ':' && !sStarts (sTrim line) "-") = false)
    (hb : sStarts (sTrim line) "-" = false) (hcur : st.current = none) :
    processLine st line = st := by
  unfold processLine
  rw [if_neg (by simp [hf]), if_neg (by simp [hc]), if_neg (by simp [hm]),
    if_neg (by simp [hh]), if_neg (by simp [hco]), if_neg (by simp [hb]), hcur]

lemma pl_other_empty_blank (st : ParseState) (s : Slide) (line : String)
    (hf : sStarts (sTrim line) "```" = false) (hc : st.inCodeBlock = false)
    (hm : sStarts line "# " = false) (hh : sStarts line "## " = false)
    (hco : (sHasChar line ':' && !sStarts (sTrim line) "-") = false)
    (hb : sStarts (sTrim line) "-" = false) (hcur : st.current = some s)
    (he : s.content = []) (ht : sTrim line = "") :
    processLine st line = st := by
  unfold processLine
  rw [if_neg (by simp [hf]), if_neg (by simp [hc]), if_neg (by simp [hm]),
    if_neg (by simp [hh]), if_neg (by simp [hco]), if_neg (by simp [hb]), hcur]
  simp [he, ht]

lemma pl_other_empty_para (st : ParseState) (s : Slide) (line : String)
    (hf : sStarts (sTrim line) "```" = false) (hc : st.inCodeBlock = false)
    (hm : sStarts line "# " = false) (hh : sStarts line "## " = false)
    (hco : (sHasChar line ':' && !sStarts (sTrim line) "-") = false)
    (hb : sStarts (sTrim line) "-" = false) (hcur : st.current = some s)
    (he : s.content = []) (ht : sTrim line ≠ "") :
    processLine st line = ⟨st.slides, some (appendFrag (para line) s), st.inCodeBlock⟩ := by
  unfold processLine
  rw [if_neg (by simp [hf]), if_neg (by simp [hc]), if_neg (by simp [hm]),
    if_neg (by simp [hh]), if_neg (by simp [hco]), if_neg (by simp [hb]), hcur]
  simp [he, ht]

lemma pl_other_close (st : ParseState) (s : Slide) (line : String)
    (hf : sStarts (sTrim line) "```" = false) (hc : st.inCodeBlock = false)
    (hm : sStarts line "# " = false) (hh : sStarts line "## " = false)
    (hco : (sHasChar line ':' && !sStarts (sTrim line) "-") = false)
    (hb : sStarts (sTrim line) "-" = false) (hcur : st.current = some s)
    (he : s.content ≠ []) (ho : hasOpenList s.content = true) (ht : sTrim line ≠ "") :
    processLine st line = ⟨st.slides, some (closeParaUpdate line s), st.inCodeBlock⟩ := by
  unfold processLine
  rw [if_neg (by simp [hf]), if_neg (by simp [hc]), if_neg (by simp [hm]),
    if_neg (by simp [hh]), if_neg (by simp [hco]), if_neg (by simp [hb]), hcur]
  simp [he, ho, ht]

lemma pl_other_para (st : ParseState) (s : Slide) (line : String)
    (hf : sStarts (sTrim line) "```" = false) (hc : st.inCodeBlock = false)
    (hm : sStarts line "# " = false) (hh : sStarts line "## " = false)
    (hco : (sHasChar line ':' && !sStarts (sTrim line) "-") = false)
    (hb : sStarts (sTrim line) "-" = false) (hcur : st.current = some s)
    (he : s.content ≠ []) (ho : hasOpenList s.content = false) (ht : sTrim line ≠ "") :
    processLine st line = ⟨st.slides, some (appendFrag (para line) s), st.inCodeBlock⟩ := by
  unfold processLine
  rw [if_neg (by simp [hf]), if_neg (by simp [hc]), if_neg (by simp [hm]),
    if_neg (by simp [hh]), if_neg (by simp [hco]), if_neg (by simp [hb]), hcur]
  simp [he, ho, ht]

lemma pl_other_blank (st : ParseState) (s : Slide) (line : String)
    (hf : sStarts (sTrim line) "```" = false) (hc : st.inCodeBlock = false)
    (hm : sStarts line "# " = false) (hh : sStarts line "## " = false)
    (hco : (sHasChar line ':' && !sStarts (sTrim line) "-") = false)
    (hb : sStarts (sTrim line) "-" = false) (hcur : st.current = some s)
    (he : s.content ≠ []) (ht : sTrim line = "") :
    processLine st line = st := by
  unfold processLine
  rw [if_neg (by simp [hf]), if_neg (by simp [hc]), if_neg (by simp [hm]),
    if_neg (by simp [hh]), if_neg (by simp [hco]), if_neg (by simp [hb]), hcur]
  simp [he, ht]

/-! ### The heading invariant -/

/-- A line that is neither a fence, nor inside a fenced block, nor a
`# ` marker leaves the committed slides, the `in_code_block` flag and
the heading of the slide under construction unchanged. -/
lemma processLine_keep (st : ParseState) (line : String)
    (hf : sStarts (sTrim line) "```" = false) (hc : st.inCodeBlock = false)
    (hm : sStarts line "# " = false) :
    (processLine st line).slides = st.slides ∧
    (processLine st line).inCodeBlock = st.inCodeBlock ∧
    (processLine st line).current.map Slide.title = st.current.map Slide.title := by
  cases hh : sStarts line "## " with
  | true => rw [pl_h2 st line hf hc hm hh]; cases st.current <;> simp
  | false =>
      cases hco : (sHasChar line ':' && !sStarts (sTrim line) "-") with
      | true =>
          cases hcur : st.current with
          | none => rw [pl_meta_nocur st line hf hc hm hh hco hcur]; exact ⟨rfl, rfl, by rw [hcur]⟩
          | some s =>
              by_cases hk : colonKey line ∈ recognizedKeys
              · rw [pl_meta_store st s line hf hc hm hh hco hcur hk]; simp [hcur]
              · rw [pl_meta_skip st s line hf hc hm hh hco hcur hk]; exact ⟨rfl, rfl, by rw [hcur]⟩
      | false =>
          cases hb : sStarts (sTrim line) "-" with
          | true =>
              cases hcur : st.current with
              | none => rw [pl_bullet_nocur st line hf hc hm hh hco hb hcur]; exact ⟨rfl, rfl, by rw [hcur]⟩
              | some s => rw [pl_bullet st s line hf hc hm hh hco hb hcur]; simp [hcur]
          | false =>
              cases hcur : st.current with
              | none => rw [pl_other_nocur st line hf hc hm hh hco hb hcur]; exact ⟨rfl, rfl, by rw [hcur]⟩
              | some s =>
                  by_cases he : s.content = []
                  · by_cases ht : sTrim line = ""
                    · rw [pl_other_empty_blank st s line hf hc hm hh hco hb hcur he ht]
                      exact ⟨rfl, rfl, by rw [hcur]⟩
                    · rw [pl_other_empty_para st s line hf hc hm hh hco hb hcur he ht]
                      simp [hcur]
                  · by_cases ht : sTrim line = ""
                    · rw [pl_other_blank st s line hf hc hm hh hco hb hcur he ht]
                      exact ⟨rfl, rfl, by rw [hcur]⟩
                    · cases ho : hasOpenList s.content with
                      | true =>
                          rw [pl_other_close st s line hf hc hm hh hco hb hcur he ho ht]
                          simp [hcur]
                      | false =>
                          rw [pl_other_para st s line hf hc hm hh hco hb hcur he ho ht]
                          simp [hcur]

lemma processLine_spec (st : ParseState) (line : String) :
    (processLine st line).inCodeBlock = fenceToggle st.inCodeBlock line ∧
    headingsOf (processLine st line) =
      headingsOf st ++
        (if sStarts (sTrim line) "```" = false ∧ st.inCodeBlock = false ∧ sStarts line "# " = true
         then [sTrim (sDrop line 2)] else []) := by
  cases hf : sStarts (sTrim line) "```" with
  | true =>
      cases hc : st.inCodeBlock with
      | true =>
          rw [pl_fence_close st line hf hc]
          refine ⟨by simp [fenceToggle, hf, hc], ?_⟩
          cases hcur : st.current <;> simp [headingsOf, hcur]
      | false =>
          rw [pl_fence_open st line hf hc]
          refine ⟨by simp [fenceToggle, hf, hc], ?_⟩
          cases hcur : st.current <;> simp [headingsOf, hcur]
  | false =>
      cases hc : st.inCodeBlock with
      | true =>
          rw [pl_code st line hf hc]
          refine ⟨by simp [fenceToggle, hf, hc], ?_⟩
          cases hcur : st.current <;> simp [headingsOf, hcur]
      | false =>
          cases hm : sStarts line "# " with
          | true =>
              rw [pl_marker st line hf hc hm]
              refine ⟨by simp [fenceToggle, hf, hc], ?_⟩
              cases hcur : st.current <;> simp [headingsOf, hcur]
          | false =>
              obtain ⟨h1, h2, h3⟩ := processLine_keep st line hf hc hm
              refine ⟨by rw [h2, hc]; simp [fenceToggle, hf], ?_⟩
              unfold headingsOf
              rw [h1, h3]
              simp

lemma foldl_headings (lines : List String) : ∀ st : ParseState,
    headingsOf (lines.foldl processLine st) =
      headingsOf st ++ markerHeadings st.inCodeBlock lines := by
  induction lines with
  | nil => intro st; simp [markerHeadings]
  | cons l rest ih =>
      intro st
      rw [List.foldl_cons, ih (processLine st l), (processLine_spec st l).2,
        (processLine_spec st l).1]
      cases hf : sStarts (sTrim l) "```" <;> cases hin : st.inCodeBlock <;>
        cases hm : sStarts l "# " <;>
          simp [markerHeadings, fenceToggle, hf, hin, hm, List.append_assoc]

lemma finalizeState_of_none (st : ParseState) (h : st.current = none) :
    finalizeState st = st.slides := by
  unfold finalizeState; rw [h]

lemma finalizeState_of_some (st : ParseState) (s : Slide) (h : st.current = some s) :
    finalizeState st = st.slides ++ [finalizeSlide s] := by
  unfold finalizeState; rw [h]

/-- The headings of the parsed slides are exactly the `# ` marker texts
met outside fenced code, in source order. -/
lemma parse_outline_titles (text : String) :
    (parse_outline text).map Slide.title = markerHeadings false (sSplitLines text) := by
  have h := foldl_headings (sSplitLines text) initState
  rw [show headingsOf initState = [] from rfl, show initState.inCodeBlock = false from rfl,
    List.nil_append] at h
  unfold parse_outline
  cases hc : ((sSplitLines text).foldl processLine initState).current with
  | none =>
      rw [finalizeState_of_none _ hc]
      unfold headingsOf at h
      rw [hc] at h
      simpa using h
  | some s =>
      rw [finalizeState_of_some _ s hc]
      unfold headingsOf at h
      rw [hc] at h
      simp only [List.map_append, List.map_cons, List.map_nil, finalizeSlide_title]
      simpa using h

/-- A non-fence, non-marker line processed with no slide under
construction and the fence flag off leaves the state unchanged. -/
lemma processLine_nocur (sl : List Slide) (line : String)
    (hf : sStarts (sTrim line) "```" = false)
    (hm : sStarts line "# " = false) :
    processLine ⟨sl, none, false⟩ line = ⟨sl, none, false⟩ := by
  cases hh : sStarts line "## " with
  | true => rw [pl_h2 ⟨sl, none, false⟩ line hf rfl hm hh]; rfl
  | false =>
      cases hco : (sHasChar line ':' && !sStarts (sTrim line) "-") with
      | true => exact pl_meta_nocur ⟨sl, none, false⟩ line hf rfl hm hh hco rfl
      | false =>
          cases hb : sStarts (sTrim line) "-" with
          | true => exact pl_bullet_nocur ⟨sl, none, false⟩ line hf rfl hm hh hco hb rfl
          | false => exact pl_other_nocur ⟨sl, none, false⟩ line hf rfl hm hh hco hb rfl

/-! ## Claims -/

/-- C7 (counterexample): the heading sequence does not always equal the
trimmed texts of all syntactic `# ` lines: a `# ` line inside a fenced
code block starts no slide, so for `"```\n# A\n```\n# B"` parse yields
the single heading `B` while the source holds two `# ` lines `A`, `B`. -/
theorem C7_counterexample :
    (parse_outline "```\n# A\n```\n# B").map Slide.title = ["B"] ∧
    ((sSplitLines "```\n# A\n```\n# B").filter (fun l => sStarts l "# ")).map
        (fun l => sTrim (sDrop l 2)) = ["A", "B"] ∧
    (parse_outline "```\n# A\n```\n# B").map Slide.title ≠ ["A", "B"] := by
  decide

/-- C7 (amended): the heading sequence of the slides returned by
`parse_outline` equals, in order, the trimmed trailing texts of the `# `
marker lines encountered outside fenced code blocks. -/
theorem C7_heading_order (text : String) :
    (parse_outline text).map Slide.title = markerHeadings false (sSplitLines text) :=
  parse_outline_titles text

/-- C1 (counterexample): the number of slides does not always equal the
number of syntactic `# ` lines, and a `# ` line may be present while
parse returns the empty sequence: in `"```\n# A"` the marker line sits
inside a fenced block, so parse returns no slides. -/
theorem C1_counterexample :
    0 < ((sSplitLines "```\n# A").filter (fun l => sStarts l "# ")).length ∧
    parse_outline "```\n# A" = [] := by
  decide

/-- C1 (amended): for every input with at least one `# ` marker line
outside fenced code blocks, `parse_outline` returns a non-empty sequence
whose length equals the number of such marker lines; in particular the
result is empty only when no such marker line exists. -/
theorem C1_slide_count (text : String)
    (h : 0 < (markerHeadings false (sSplitLines text)).length) :
    parse_outline text ≠ [] ∧
    (parse_outline text).length = (markerHeadings false (sSplitLines text)).length := by
  have ht := parse_outline_titles text
  have hlen : (parse_outline text).length = (markerHeadings false (sSplitLines text)).length := by
    rw [← ht]; simp
  refine ⟨?_, hlen⟩
  intro he
  rw [he] at hlen
  simp at hlen
  omega

/-- C1 witness: on `"# A\n# B"` there are two markers and two slides. -/
theorem C1_slide_count_witness :
    0 < (markerHeadings false (sSplitLines "# A\n# B")).length ∧
    (parse_outline "# A\n# B" ≠ [] ∧
      (parse_outline "# A\n# B").length =
        (markerHeadings false (sSplitLines "# A\n# B")).length) :=
  ⟨by decide, C1_slide_count "# A\n# B" (by decide)⟩

/-- C5: the body built from the lines `- a`, `- b`, `plain` is exactly
`<ul>`, two list items, `</ul>`, then a paragraph; and every slide still
under construction at end of input whose last body fragment is a list
item receives a closing `</ul>` before being committed. -/
theorem C5_list_bracketing :
    parse_outline "# S\n- a\n- b\nplain" =
      [⟨SlideType.content, "S",
        ["<ul>", "  <li>a</li>", "  <li>b</li>", "</ul>", "<p>plain</p>"], []⟩] ∧
    ∀ (text : String) (s : Slide),
      ((sSplitLines text).foldl processLine initState).current = some s →
      (∃ l, s.content.getLast? = some l ∧ sStarts l "  <li>" = true) →
      parse_outline text =
        ((sSplitLines text).foldl processLine initState).slides ++
          [{ s with content := s.content ++ ["</ul>"] }] := by
  refine ⟨by decide, ?_⟩
  intro text s hcur hli
  obtain ⟨l, hl, hstart⟩ := hli
  unfold parse_outline
  rw [finalizeState_of_some _ s hcur]
  unfold finalizeSlide
  rw [hl]
  simp [hstart]

/-- C5 witness: `"# T\n- x"` ends mid-list and is closed at finalization. -/
theorem C5_list_bracketing_witness :
    ((sSplitLines "# T\n- x").foldl processLine initState).current =
        some ⟨SlideType.content, "T", ["<ul>", "  <li>x</li>"], []⟩ ∧
    parse_outline "# T\n- x" =
      [⟨SlideType.content, "T", ["<ul>", "  <li>x</li>", "</ul>"], []⟩] :=
  ⟨by decide,
   (C5_list_bracketing.2 "# T\n- x" ⟨SlideType.content, "T", ["<ul>", "  <li>x</li>"], []⟩
      (by decide) ⟨"  <li>x</li>", by decide, by decide⟩).trans (by decide)⟩

/-- C6: with a slide under construction, an opening fence line appends a
code-block-open fragment carrying the trimmed trailing language tag
(defaulting to `text` when empty); every line inside the fenced block is
appended verbatim, whatever characters it starts with; the closing fence
line appends the code-block-close fragment. -/
theorem C6_fenced_block (st : ParseState) (s : Slide) (line : String)
    (hcur : st.current = some s) :
    (sStarts (sTrim line) "```" = true → st.inCodeBlock = false →
      processLine st line =
        ⟨st.slides,
         some (appendFrag ("<pre><code class=\"" ++
           (if sTrim (sDrop (sTrim line) 3) = "" then "text"
            else sTrim (sDrop (sTrim line) 3)) ++ "\" data-trim>") s),
         true⟩) ∧
    (sStarts (sTrim line) "```" = false → st.inCodeBlock = true →
      processLine st line = ⟨st.slides, some (appendFrag line s), st.inCodeBlock⟩) ∧
    (sStarts (sTrim line) "```" = true → st.inCodeBlock = true →
      processLine st line = ⟨st.slides, some (appendFrag "</code></pre>" s), false⟩) := by
  refine ⟨?_, ?_, ?_⟩
  · intro hf hc
    rw [pl_fence_open st line hf hc, hcur]
    rfl
  · intro hf hc
    rw [pl_code st line hf hc, hcur]
    rfl
  · intro hf hc
    rw [pl_fence_close st line hf hc, hcur]
    rfl

/-- C6 witness: a `python`-tagged fence opens with tag `python`, a `# `
line inside the block is kept verbatim, and the closing fence appends
the closing fragment. -/
theorem C6_fenced_block_witness :
    processLine ⟨[], some ⟨SlideType.content, "S", [], []⟩, false⟩ "```python" =
      ⟨[], some ⟨SlideType.content, "S", ["<pre><code class=\"python\" data-trim>"], []⟩, true⟩ ∧
    processLine ⟨[], some ⟨SlideType.content, "S", [], []⟩, true⟩ "# not a marker" =
      ⟨[], some ⟨SlideType.content, "S", ["# not a marker"], []⟩, true⟩ ∧
    processLine ⟨[], some ⟨SlideType.content, "S", [], []⟩, true⟩ "```" =
      ⟨[], some ⟨SlideType.content, "S", ["</code></pre>"], []⟩, false⟩ :=
  ⟨((C6_fenced_block ⟨[], some ⟨SlideType.content, "S", [], []⟩, false⟩
        ⟨SlideType.content, "S", [], []⟩ "```python" rfl).1 (by decide) rfl).trans (by decide),
   ((C6_fenced_block ⟨[], some ⟨SlideType.content, "S", [], []⟩, true⟩
        ⟨SlideType.content, "S", [], []⟩ "# not a marker" rfl).2.1 (by decide) rfl).trans
      (by decide),
   ((C6_fenced_block ⟨[], some ⟨SlideType.content, "S", [], []⟩, true⟩
        ⟨SlideType.content, "S", [], []⟩ "```" rfl).2.2 (by decide) rfl).trans (by decide)⟩

/-- C10: while no slide is under construction, a line never changes the
committed slides; the fence flag is still toggled by fence lines; and
unless the line is an effective new-slide marker (a `# ` line met
outside fenced code), the whole state is unchanged except for that
toggle — so a `# ` line inside an open fence starts no slide. -/
theorem C10_before_first_marker (st : ParseState) (line : String)
    (hcur : st.current = none) :
    (processLine st line).slides = st.slides ∧
    (processLine st line).inCodeBlock = fenceToggle st.inCodeBlock line ∧
    (¬(st.inCodeBlock = false ∧ sStarts (sTrim line) "```" = false ∧
        sStarts line "# " = true) →
      processLine st line = { st with inCodeBlock := fenceToggle st.inCodeBlock line }) := by
  rcases st with ⟨sl, cur, b⟩
  have hcur' : cur = none := hcur
  subst hcur'
  refine ⟨?_, (processLine_spec ⟨sl, none, b⟩ line).1, ?_⟩
  · cases hf : sStarts (sTrim line) "```" with
    | true =>
        cases b with
        | true => rw [pl_fence_close ⟨sl, none, true⟩ line hf rfl]
        | false => rw [pl_fence_open ⟨sl, none, false⟩ line hf rfl]
    | false =>
        cases b with
        | true => rw [pl_code ⟨sl, none, true⟩ line hf rfl]
        | false =>
            cases hm : sStarts line "# " with
            | true => rw [pl_marker ⟨sl, none, false⟩ line hf rfl hm]; simp
            | false => rw [processLine_nocur sl line hf hm]
  · intro hnot
    cases hf : sStarts (sTrim line) "```" with
    | true =>
        cases b with
        | true =>
            rw [pl_fence_close ⟨sl, none, true⟩ line hf rfl]
            simp [fenceToggle, hf]
        | false =>
            rw [pl_fence_open ⟨sl, none, false⟩ line hf rfl]
            simp [fenceToggle, hf]
    | false =>
        cases b with
        | true =>
            rw [pl_code ⟨sl, none, true⟩ line hf rfl]
            simp [fenceToggle, hf]
        | false =>
            cases hm : sStarts line "# " with
            | true => exact absurd ⟨rfl, hf, hm⟩ hnot
            | false =>
                rw [processLine_nocur sl line hf hm]
                simp [fenceToggle, hf]

/-- C10 witness: a bullet line before the first marker leaves the
initial state untouched. -/
theorem C10_before_first_marker_witness :
    processLine initState "- stray bullet" =
      { initState with inCodeBlock := fenceToggle initState.inCodeBlock "- stray bullet" } :=
  (C10_before_first_marker initState "- stray bullet" rfl).2.2 (by decide)

/-- C2 (counterexample): metadata key matching is case-sensitive in the
parser: the line `title: X`, whose trimmed case-normalized key is
`title`, stores nothing — the slide's metadata stays empty, though the
claim requires `title ↦ X`. -/
theorem C2_counterexample :
    sLower (colonKey "title: X") = "title" ∧
    parse_outline "# Title Slide\ntitle: X" = [⟨SlideType.title, "Title Slide", [], []⟩] := by
  decide

/-- C2 (amended): a metadata line stores its trimmed value under the
lowercased key only when the trimmed key matches one of `Title`,
`Subtitle`, `Author`, `Date` exactly, including letter case. -/
theorem C2_metadata_exact_case (st : ParseState) (s : Slide) (line : String)
    (hcur : st.current = some s)
    (hc : st.inCodeBlock = false)
    (hf : sStarts (sTrim line) "```" = false)
    (hm : sStarts line "# " = false) (hh : sStarts line "## " = false)
    (hco : (sHasChar line ':' && !sStarts (sTrim line) "-") = true)
    (hk : colonKey line ∈ recognizedKeys) :
    processLine st line =
      ⟨st.slides,
       some { s with metadata := dictInsert s.metadata (sLower (colonKey line)) (colonVal line) },
       st.inCodeBlock⟩ :=
  pl_meta_store st s line hf hc hm hh hco hcur hk

/-- C2 witness: `Title: Demo` on the title slide stores `title ↦ Demo`. -/
theorem C2_metadata_exact_case_witness :
    processLine ⟨[], some ⟨SlideType.title, "Title Slide", [], []⟩, false⟩ "Title: Demo" =
      ⟨[], some ⟨SlideType.title, "Title Slide", [], [("title", "Demo")]⟩, false⟩ :=
  (C2_metadata_exact_case ⟨[], some ⟨SlideType.title, "Title Slide", [], []⟩, false⟩
      ⟨SlideType.title, "Title Slide", [], []⟩ "Title: Demo" rfl rfl (by decide) (by decide)
      (by decide) (by decide) (by decide)).trans (by decide)

/-- C9 (counterexample): not every colon-bearing, non-bullet line with
an unrecognized key is ignored: `## Agenda: intro` has the unrecognized
key `## Agenda`, yet it is classified as a sub-heading and appends an
`<h2>` body fragment. -/
theorem C9_counterexample :
    sHasChar "## Agenda: intro" ':' = true ∧
    sStarts (sTrim "## Agenda: intro") "-" = false ∧
    colonKey "## Agenda: intro" ∉ recognizedKeys ∧
    parse_outline "# S\n## Agenda: intro" =
      [⟨SlideType.content, "S", ["<h2>Agenda: intro</h2>"], []⟩] := by
  decide

/-- C9 (amended): a line outside fenced code that contains a colon, is
not a fence, new-slide or sub-heading line, does not start with a bullet
marker after trimming, and whose trimmed key is unrecognized, leaves the
parser state completely unchanged: nothing stored, nothing appended. -/
theorem C9_ignored_metadata (st : ParseState) (line : String)
    (hc : st.inCodeBlock = false)
    (hf : sStarts (sTrim line) "```" = false)
    (hm : sStarts line "# " = false) (hh : sStarts line "## " = false)
    (hcolon : sHasChar line ':' = true)
    (hb : sStarts (sTrim line) "-" = false)
    (hk : colonKey line ∉ recognizedKeys) :
    processLine st line = st := by
  have hco : (sHasChar line ':' && !sStarts (sTrim line) "-") = true := by
    simp [hcolon, hb]
  cases hcur : st.current with
  | none => exact pl_meta_nocur st line hf hc hm hh hco hcur
  | some s => exact pl_meta_skip st s line hf hc hm hh hco hcur hk

/-- C9 witness: `Speaker: Dana` is dropped without a trace. -/
theorem C9_ignored_metadata_witness :
    processLine ⟨[], some ⟨SlideType.content, "S", [], []⟩, false⟩ "Speaker: Dana" =
      ⟨[], some ⟨SlideType.content, "S", [], []⟩, false⟩ :=
  C9_ignored_metadata ⟨[], some ⟨SlideType.content, "S", [], []⟩, false⟩ "Speaker: Dana"
    rfl (by decide) (by decide) (by decide) (by decide) (by decide) (by decide)

/-- C3 (counterexample): a blank line immediately following open list
content does not close the list: in the state reached after `# S` and
`- a` the list is open, and processing the blank line returns the state
unchanged — no `</ul>` fragment is appended. -/
theorem C3_counterexample :
    ((sSplitLines "# S\n- a").foldl processLine initState).current =
      some ⟨SlideType.content, "S", ["<ul>", "  <li>a</li>"], []⟩ ∧
    hasOpenList ["<ul>", "  <li>a</li>"] = true ∧
    processLine ⟨[], some ⟨SlideType.content, "S", ["<ul>", "  <li>a</li>"], []⟩, false⟩ "" =
      ⟨[], some ⟨SlideType.content, "S", ["<ul>", "  <li>a</li>"], []⟩, false⟩ := by
  decide

/-- C3 (amended): a blank line following open list content leaves the
state (and so the open list) unchanged; only a non-blank line that is
not a fence, marker, sub-heading, colon or bullet line closes the open
list, appending `</ul>` and then a paragraph fragment. -/
theorem C3_blank_line_list (st : ParseState) (s : Slide)
    (hcur : st.current = some s) (hc : st.inCodeBlock = false)
    (ho : hasOpenList s.content = true) :
    processLine st "" = st ∧
    ∀ line, sStarts (sTrim line) "```" = false → sStarts line "# " = false →
      sStarts line "## " = false → sHasChar line ':' = false →
      sStarts (sTrim line) "-" = false → sTrim line ≠ "" →
      processLine st line =
        ⟨st.slides, some { s with content := s.content ++ ["</ul>", para line] },
         st.inCodeBlock⟩ := by
  have hne : s.content ≠ [] := by
    intro hnil
    rw [hnil] at ho
    simp [hasOpenList, scanOpenRev] at ho
  constructor
  · exact pl_other_blank st s "" (by decide) hc (by decide) (by decide) (by decide)
      (by decide) hcur hne (by decide)
  · intro line hf hm hh hcolon hb ht
    have hco : (sHasChar line ':' && !sStarts (sTrim line) "-") = false := by
      simp [hcolon]
    exact pl_other_close st s line hf hc hm hh hco hb hcur hne ho ht

/-- C3 witness: blank keeps the list open, `tail` closes it. -/
theorem C3_blank_line_list_witness :
    processLine ⟨[], some ⟨SlideType.content, "S", ["<ul>", "  <li>a</li>"], []⟩, false⟩ "" =
      ⟨[], some ⟨SlideType.content, "S", ["<ul>", "  <li>a</li>"], []⟩, false⟩ ∧
    processLine ⟨[], some ⟨SlideType.content, "S", ["<ul>", "  <li>a</li>"], []⟩, false⟩ "tail" =
      ⟨[], some ⟨SlideType.content, "S",
        ["<ul>", "  <li>a</li>", "</ul>", "<p>tail</p>"], []⟩, false⟩ :=
  ⟨(C3_blank_line_list ⟨[], some ⟨SlideType.content, "S", ["<ul>", "  <li>a</li>"], []⟩, false⟩
      ⟨SlideType.content, "S", ["<ul>", "  <li>a</li>"], []⟩ rfl rfl (by decide)).1,
   ((C3_blank_line_list ⟨[], some ⟨SlideType.content, "S", ["<ul>", "  <li>a</li>"], []⟩, false⟩
      ⟨SlideType.content, "S", ["<ul>", "  <li>a</li>"], []⟩ rfl rfl (by decide)).2 "tail"
      (by decide) (by decide) (by decide) (by decide) (by decide) (by decide)).trans (by decide)⟩

/-- C4 (counterexample): a Content slide can carry non-empty metadata:
`Title: Hack` inside the Content slide `# Intro` is stored in that
slide's metadata map. -/
theorem C4_counterexample :
    parse_outline "# Intro\nTitle: Hack" =
      [⟨SlideType.content, "Intro", [], [("title", "Hack")]⟩] ∧
    (⟨SlideType.content, "Intro", [], [("title", "Hack")]⟩ : Slide).type = SlideType.content ∧
    (⟨SlideType.content, "Intro", [], [("title", "Hack")]⟩ : Slide).metadata ≠ [] := by
  decide

/-- C4 (amended): recognized metadata lines populate whatever slide is
under construction, so Content slides may carry metadata; however a
Content slide's rendered HTML never depends on its metadata map. -/
theorem C4_content_metadata_render (s : Slide) (m : List (String × String))
    (h : s.type = SlideType.content) :
    generate_slide_html { s with metadata := m } = generate_slide_html s := by
  unfold generate_slide_html
  have h1 : ({ s with metadata := m } : Slide).type = SlideType.content := h
  rw [if_neg (by rw [h1]; simp), if_neg (by rw [h]; simp)]

/-- C4 witness: metadata on a concrete Content slide is ignored by the
renderer. -/
theorem C4_content_metadata_render_witness :
    generate_slide_html ⟨SlideType.content, "Intro", ["<p>x</p>"], [("title", "Hack")]⟩ =
      generate_slide_html ⟨SlideType.content, "Intro", ["<p>x</p>"], []⟩ :=
  C4_content_metadata_render ⟨SlideType.content, "Intro", ["<p>x</p>"], []⟩
    [("title", "Hack")] rfl

@[simp] lemma strData_append (a b : String) : (a ++ b).data = a.data ++ b.data := rfl

@[simp] lemma strData_empty : ("" : String).data = [] := rfl

lemma strEq_of_data (a b : String) (h : a.data = b.data) : a = b := by
  cases a; cases b; exact congrArg String.mk (by simpa using h)

/-- C8 (counterexample): the renderer keys on non-emptiness, not
presence: a Title slide whose metadata holds `subtitle ↦ ""` (present,
empty value) renders with no sub-heading element at all. -/
theorem C8_counterexample :
    dictGet ((⟨SlideType.title, "Title Slide", [], [("subtitle", "")]⟩ : Slide).metadata)
        "subtitle" = some "" ∧
    generate_slide_html ⟨SlideType.title, "Title Slide", [], [("subtitle", "")]⟩ =
      "      <section>\n        <h1>Presentation Title</h1>\n      </section>\n" := by
  decide

/-- C8 (amended): for a Title slide the renderer emits the `<h1>` from
metadata `title` (placeholder `Presentation Title` when absent), the
`<h3>` exactly when `subtitle` is present with a non-empty value, and
the byline `<p>` block exactly when `author` or `date` is present with a
non-empty value, with each `<small>` line present exactly for its
non-empty field. -/
theorem C8_title_render (s : Slide) (h : s.type = SlideType.title) :
    generate_slide_html s =
      "      <section>\n" ++
      ("        <h1>" ++ (dictGet s.metadata "title").getD "Presentation Title" ++ "</h1>\n") ++
      (if (dictGet s.metadata "subtitle").getD "" ≠ "" then
        "        <h3>" ++ (dictGet s.metadata "subtitle").getD "" ++ "</h3>\n" else "") ++
      (if (dictGet s.metadata "author").getD "" ≠ "" ∨
          (dictGet s.metadata "date").getD "" ≠ "" then
        "        <p>\n" ++
        (if (dictGet s.metadata "author").getD "" ≠ "" then
          "          <small>" ++ (dictGet s.metadata "author").getD "" ++ "</small><br>\n"
         else "") ++
        (if (dictGet s.metadata "date").getD "" ≠ "" then
          "          <small>" ++ (dictGet s.metadata "date").getD "" ++ "</small>\n" else "") ++
        "        </p>\n"
       else "") ++
      "      </section>\n" := by
  by_cases h1 : (dictGet s.metadata "subtitle").getD "" = "" <;>
    by_cases h2 : (dictGet s.metadata "author").getD "" = "" <;>
      by_cases h3 : (dictGet s.metadata "date").getD "" = "" <;>
        (apply strEq_of_data;
         simp [generate_slide_html, h, h1, h2, h3, List.append_assoc])

/-- C8 witness: author only — heading, no sub-heading, byline with the
author line alone. -/
theorem C8_title_render_witness :
    generate_slide_html ⟨SlideType.title, "Title Slide", [], [("author", "Ada")]⟩ =
      "      <section>\n        <h1>Presentation Title</h1>\n        <p>\n          <small>Ada</small><br>\n        </p>\n      </section>\n" :=
  (C8_title_render ⟨SlideType.title, "Title Slide", [], [("author", "Ada")]⟩ rfl).trans
    (by decide)
